import Mathlib

/-!
# Verification of the reputation-ledger core of `src/main.py`

This file gives a shallow embedding of the persistent reputation ledger of
the bot in `src/main.py` (the `DatabaseManager` class over PostgreSQL, and
the command-handler logic layered on it), and proves or refutes the frozen
claims about it.

Modelling conventions:
* SQL tables become association lists / plain lists inside a `DBState`
  record.  `users`, `cooldowns`, `dummy_usage` are keyed by `user_id`
  (one row per key, upsert semantics); `vouches`, `helpvouches`,
  `scammer_reports` are append-only lists.
* `CURRENT_TIMESTAMP` is a `Nat` number of seconds passed in explicitly
  (parameter `now`); `CURRENT_DATE` is an `Int` day number (parameter
  `today`).
* Every Python method wraps its body in `try ... except: log; return
  default`, and the connection runs with `autocommit = True`, so each SQL
  statement commits individually and an exception between two statements
  of one method leaves the earlier statement committed.  Where a claim is
  about this failure behaviour we model each statement's outcome
  explicitly (`StmtOutcome`), and the `try/except` wrapper as a function
  on `Except StorageError DBState`.
-/

/-- A row of the `users` table (`src/main.py` lines 83-89):
`user_id BIGINT PRIMARY KEY, reputation INTEGER DEFAULT 0,
is_blacklisted BOOLEAN DEFAULT FALSE`.  The key is kept outside the row. -/
structure UserRow where
  reputation : Int
  is_blacklisted : Bool
deriving Repr, DecidableEq

/-- A row of the `vouches` table (lines 92-101). -/
structure VouchRow where
  target_id : Int
  voucher_id : Int
  reason : String
  rep_amount : Int
  created_at : Nat
deriving Repr, DecidableEq

/-- A row of the `helpvouches` table (lines 121-129). -/
structure HelpVouchRow where
  target_id : Int
  helper_id : Int
  amount : Int
  created_at : Nat
deriving Repr, DecidableEq

/-- A row of the `dummy_usage` table (lines 112-118); the key is kept
outside the row.  `usage_date` is a calendar-day number. -/
structure DummyRow where
  usage_date : Int
  count : Int
deriving Repr, DecidableEq

/-- A row of the `scammer_reports` table (lines 132-140).  `id` is the
`SERIAL` primary key. -/
structure ScamRow where
  id : Nat
  user_id : Int
  reporter_id : Int
  reason : String
  created_at : Nat
deriving Repr, DecidableEq

/-- The whole database state: one field per table.  `next_report_id`
models the `SERIAL` sequence backing `scammer_reports.id` (monotone, never
reused). -/
structure DBState where
  users : List (Int × UserRow)
  vouches : List VouchRow
  cooldowns : List (Int × Nat)
  dummy_usage : List (Int × DummyRow)
  helpvouches : List HelpVouchRow
  scammer_reports : List ScamRow
  next_report_id : Nat
deriving Repr, DecidableEq

/-- The empty database (all tables freshly created by `init_database`). -/
def DBState.empty : DBState :=
  ⟨[], [], [], [], [], [], 0⟩

/-- `SELECT ... WHERE key = k` on a single-row-per-key table. -/
def findRow {α : Type} : List (Int × α) → Int → Option α
  | [], _ => none
  | (k', v) :: rest, k => if k' = k then some v else findRow rest k

/-- `INSERT ... VALUES (k, ins) ON CONFLICT (key) DO UPDATE SET ... = upd`:
replace the existing row in place, or append a fresh one. -/
def upsert {α : Type} : List (Int × α) → Int → α → (α → α) → List (Int × α)
  | [], k, ins, _ => [(k, ins)]
  | (k', v) :: rest, k, ins, upd =>
    if k' = k then (k', upd v) :: rest else (k', v) :: upsert rest k ins upd

/-- `DELETE FROM ... WHERE key = k`. -/
def delRow {α : Type} (l : List (Int × α)) (k : Int) : List (Int × α) :=
  l.filter (fun p => decide (p.1 ≠ k))

namespace Config

/-- `Config.VOUCH_REP_AMOUNT = 3` (line 33). -/
def VOUCH_REP_AMOUNT : Int := 3

/-- `Config.VOUCH_COOLDOWN = 600` seconds (line 34). -/
def VOUCH_COOLDOWN : Nat := 600

/-- `Config.DUMMY_PER_DAY = 3` (line 49). -/
def DUMMY_PER_DAY : Int := 3

/-- `Config.DUMMY_REP_REMOVE = 3` (line 50). -/
def DUMMY_REP_REMOVE : Int := 3

/-- `Config.HELPVOUCH_REP_MEMBER = 1` (line 47). -/
def HELPVOUCH_REP_MEMBER : Int := 1

/-- `Config.HELPVOUCH_REP_STAFF = 2` (line 48). -/
def HELPVOUCH_REP_STAFF : Int := 2

end Config

/-! ## DatabaseManager operations (pure bodies)

These are the SQL bodies of the methods, i.e. what happens when no
statement raises.  The `try/except` wrapping and per-statement failure are
modelled separately below where a claim needs them. -/

/-- `get_reputation` (lines 153-163): `SELECT reputation FROM users WHERE
user_id = %s`, returning `0` when no row exists. -/
def get_reputation (st : DBState) (uid : Int) : Int :=
  match findRow st.users uid with
  | some row => row.reputation
  | none => 0

/-- `add_reputation` (lines 165-177): `INSERT INTO users (user_id,
reputation) VALUES (%s, %s) ON CONFLICT (user_id) DO UPDATE SET
reputation = users.reputation + %s`. -/
def add_reputation (st : DBState) (uid amount : Int) : DBState :=
  { st with users := (upsert st.users uid ⟨amount, false⟩
      (fun r => { r with reputation := r.reputation + amount })) }

/-- `remove_reputation` (lines 179-191): `INSERT INTO users (user_id,
reputation) VALUES (%s, 0) ON CONFLICT (user_id) DO UPDATE SET
reputation = GREATEST(0, users.reputation - %s)`. -/
def remove_reputation (st : DBState) (uid amount : Int) : DBState :=
  { st with users := (upsert st.users uid ⟨0, false⟩
      (fun r => { r with reputation := max 0 (r.reputation - amount) })) }

/-- `set_reputation` (lines 193-205). -/
def set_reputation (st : DBState) (uid amount : Int) : DBState :=
  { st with users := (upsert st.users uid ⟨amount, false⟩
      (fun r => { r with reputation := amount })) }

/-- `clear_reputation` (lines 207-216): deletes the `users` row, the
`vouches` rows with `target_id = user_id`, and the `helpvouches` rows with
`target_id = user_id`. -/
def clear_reputation (st : DBState) (uid : Int) : DBState :=
  { st with
    users := delRow st.users uid,
    vouches := st.vouches.filter (fun v => decide (v.target_id ≠ uid)),
    helpvouches := st.helpvouches.filter (fun h => decide (h.target_id ≠ uid)) }

/-- Insertion into a descending-by-reputation ordering (models `ORDER BY
reputation DESC`, ties left in table order). -/
def insertDesc (p : Int × Int) : List (Int × Int) → List (Int × Int)
  | [] => [p]
  | q :: rest => if q.2 < p.2 then p :: q :: rest else q :: insertDesc p rest

/-- Stable descending sort by reputation. -/
def sortDesc : List (Int × Int) → List (Int × Int)
  | [] => []
  | p :: rest => insertDesc p (sortDesc rest)

/-- `get_leaderboard` (lines 218-233): `SELECT user_id, reputation FROM
users WHERE reputation > 0 ORDER BY reputation DESC`. -/
def get_leaderboard (st : DBState) : List (Int × Int) :=
  sortDesc (((st.users.filter (fun p => decide (0 < p.2.reputation))).map
    (fun p => (p.1, p.2.reputation))))

/-- Outcome of one SQL statement under `autocommit = True`: it either
commits or raises (connection failure, failed write). -/
inductive StmtOutcome
  | ok
  | raise
deriving Repr, DecidableEq

/-- `add_vouch` (lines 239-258): inside one `try`, first `INSERT INTO
vouches (target_id, voucher_id, reason, rep_amount) VALUES (..,
Config.VOUCH_REP_AMOUNT)`, then the cooldown upsert `INSERT INTO cooldowns
(user_id, last_vouch) VALUES (%s, CURRENT_TIMESTAMP) ON CONFLICT (user_id)
DO UPDATE SET last_vouch = CURRENT_TIMESTAMP` for the **voucher**.  With
`autocommit` each statement commits on its own and the `except` swallows
the error, so a raise in the second statement keeps the first one's
effect. -/
def add_vouch (st : DBState) (now : Nat) (target voucher : Int)
    (reason : String) (o1 o2 : StmtOutcome) : DBState :=
  match o1 with
  | .raise => st
  | .ok =>
    let st1 := { st with
      vouches := st.vouches ++ [⟨target, voucher, reason, Config.VOUCH_REP_AMOUNT, now⟩] }
    match o2 with
    | .raise => st1
    | .ok => { st1 with cooldowns := upsert st1.cooldowns voucher now (fun _ => now) }

/-- `add_reputation` as a single statement that may raise (its whole body
is one SQL statement inside `try/except`). -/
def add_reputation_stmt (st : DBState) (uid amount : Int)
    (o : StmtOutcome) : DBState :=
  match o with
  | .raise => st
  | .ok => add_reputation st uid amount

/-- `get_vouch_cooldown` (lines 260-281): reads `EXTRACT(EPOCH FROM
(CURRENT_TIMESTAMP - last_vouch))` for the user; returns `none` when no
row exists or at least `Config.VOUCH_COOLDOWN` seconds passed, else the
remaining seconds `Config.VOUCH_COOLDOWN - time_passed`.  Both timestamps
come from the same server clock, so `last_vouch ≤ now`; `Nat` subtraction
models the difference. -/
def get_vouch_cooldown (st : DBState) (now : Nat) (uid : Int) : Option Nat :=
  match findRow st.cooldowns uid with
  | none => none
  | some last =>
    let time_passed := now - last
    if Config.VOUCH_COOLDOWN ≤ time_passed then none
    else some (Config.VOUCH_COOLDOWN - time_passed)

/-- `is_blacklisted` (lines 412-424): `SELECT is_blacklisted FROM users
WHERE user_id = %s`, `False` when no row exists.  (The Python `def` is
mis-indented — see the claim about attribute binding — but this is its
body.) -/
def is_blacklisted (st : DBState) (uid : Int) : Bool :=
  match findRow st.users uid with
  | some row => row.is_blacklisted
  | none => false

/-- `add_to_blacklist` (lines 426-438): upsert `is_blacklisted = TRUE`. -/
def add_to_blacklist (st : DBState) (uid : Int) : DBState :=
  { st with users := (upsert st.users uid ⟨0, true⟩
      (fun r => { r with is_blacklisted := true })) }

/-- `can_use_dummy` (lines 469-494): reads `count, usage_date`; no row or
a non-today date yields `(True, Config.DUMMY_PER_DAY)`; otherwise
`remaining = Config.DUMMY_PER_DAY - count` and `(remaining > 0,
remaining)`. -/
def can_use_dummy (st : DBState) (today : Int) (uid : Int) : Bool × Int :=
  match findRow st.dummy_usage uid with
  | none => (true, Config.DUMMY_PER_DAY)
  | some row =>
    if row.usage_date ≠ today then (true, Config.DUMMY_PER_DAY)
    else
      let remaining := Config.DUMMY_PER_DAY - row.count
      (decide (0 < remaining), remaining)

/-- `use_dummy` (lines 496-514): `INSERT INTO dummy_usage (user_id,
usage_date, count) VALUES (%s, CURRENT_DATE, 1) ON CONFLICT (user_id) DO
UPDATE SET count = CASE WHEN usage_date = CURRENT_DATE THEN count + 1 ELSE
1 END, usage_date = CURRENT_DATE`. -/
def use_dummy (st : DBState) (today : Int) (uid : Int) : DBState :=
  { st with dummy_usage := (upsert st.dummy_usage uid ⟨today, 1⟩
      (fun row => if row.usage_date = today then ⟨today, row.count + 1⟩ else ⟨today, 1⟩)) }

/-- `add_helpvouch` (lines 520-530): plain insert into `helpvouches`. -/
def add_helpvouch (st : DBState) (now : Nat) (target helper amount : Int) : DBState :=
  { st with helpvouches := st.helpvouches ++ [⟨target, helper, amount, now⟩] }

/-- `add_scammer_report` (lines 316-327): plain insert; the `SERIAL` id is
assigned from the sequence. -/
def add_scammer_report (st : DBState) (now : Nat)
    (uid reporter : Int) (reason : String) : DBState :=
  { st with
    scammer_reports := st.scammer_reports ++
      [⟨st.next_report_id, uid, reporter, reason, now⟩],
    next_report_id := st.next_report_id + 1 }

/-- `get_scammer_reports` (lines 329-350) restricted to the row set:
the reports with `user_id = uid` (most-recent-first ordering is a
presentation detail; the claim about `clear_account` only needs the
set of rows, which we keep in table order). -/
def get_scammer_reports (st : DBState) (uid : Int) : List ScamRow :=
  st.scammer_reports.filter (fun r => decide (r.user_id = uid))

/-! ## The `try/except` wrappers and storage failures

Every `DatabaseManager` method has the shape `try: <SQL>; return <value>
except Exception as e: logging.error(...); return <default>`.  We model a
failed backend read by passing `Except StorageError DBState` instead of
`DBState`: `.error e` is the case where the statement raises. -/

/-- Kinds of backend failure (a raised `psycopg2` exception). -/
inductive StorageError
  | connectionFailed
  | writeFailed
deriving Repr, DecidableEq

/-- `get_reputation` with its `try/except` (lines 153-163): on a raised
exception the method logs and returns `0`. -/
def get_reputation_run (backend : Except StorageError DBState) (uid : Int) : Int :=
  match backend with
  | .ok st => get_reputation st uid
  | .error _ => 0

/-- `get_leaderboard` with its `try/except` (lines 218-233): on a raised
exception the method logs and returns `[]`. -/
def get_leaderboard_run (backend : Except StorageError DBState) : List (Int × Int) :=
  match backend with
  | .ok st => get_leaderboard st
  | .error _ => []

/-- `is_blacklisted` with its `try/except` (lines 412-424): on a raised
exception the method logs and returns `False`. -/
def is_blacklisted_run (backend : Except StorageError DBState) (uid : Int) : Bool :=
  match backend with
  | .ok st => is_blacklisted st uid
  | .error _ => false

/-- `can_use_dummy` with its `try/except` (lines 469-494): on a raised
exception the method logs and returns `(True, Config.DUMMY_PER_DAY)`. -/
def can_use_dummy_run (backend : Except StorageError DBState)
    (today : Int) (uid : Int) : Bool × Int :=
  match backend with
  | .ok st => can_use_dummy st today uid
  | .error _ => (true, Config.DUMMY_PER_DAY)

/-! ## The `!vouch` command handler

`vouch_cmd` (lines 816-922): blacklist check, reason check (`not reason or
len(reason.strip()) < 3`), self-target check, bot-target check, cooldown
check, then `db.add_reputation(member.id, Config.VOUCH_REP_AMOUNT)`
followed by `db.add_vouch(member.id, ctx.author.id, reason)`.  The
rendered embeds are presentation; we keep the branch taken and the
resulting database state.  Statement outcomes are explicit because both
mutating calls swallow exceptions and commit per statement. -/

/-- Python whitespace as stripped by `str.strip()`. -/
def isPySpace (c : Char) : Bool := [32, 9, 10, 11, 12, 13].contains c.toNat

/-- Python `reason.strip()`: drop leading and trailing whitespace. -/
def pyStrip (s : String) : String :=
  String.mk (((s.data.dropWhile isPySpace).reverse.dropWhile isPySpace).reverse)

/-- A command target (`discord.Member`): its id and whether it is a bot. -/
structure Member where
  id : Int
  isBot : Bool
deriving Repr, DecidableEq

/-- Which branch of `vouch_cmd` was taken. -/
inductive VouchResult
  | blacklisted
  | reasonRequired
  | selfVouch
  | botTarget
  | cooldownActive (remaining : Nat)
  | success (newRep : Int)
deriving Repr, DecidableEq

/-- The `!vouch` handler (lines 816-922), as a function from the database
state, the clock, the author, the target and the reason to the branch
taken and the state after the handler ran.  `orep` is the outcome of the
`add_reputation` statement, `ov1`/`ov2` those of the two statements inside
`add_vouch`. -/
def vouch_cmd (st : DBState) (now : Nat) (authorId : Int) (member : Member)
    (reason : Option String) (orep ov1 ov2 : StmtOutcome) : VouchResult × DBState :=
  if is_blacklisted st authorId then (.blacklisted, st)
  else
    match reason with
    | none => (.reasonRequired, st)
    | some r =>
      if (pyStrip r).length < 3 then (.reasonRequired, st)
      else if member.id = authorId then (.selfVouch, st)
      else if member.isBot then (.botTarget, st)
      else
        match get_vouch_cooldown st now authorId with
        | some remaining => (.cooldownActive remaining, st)
        | none =>
          let st1 := add_reputation_stmt st member.id Config.VOUCH_REP_AMOUNT orep
          let st2 := add_vouch st1 now member.id authorId r ov1 ov2
          (.success (get_reputation st2 member.id), st2)

/-! ## Python attribute binding of the ledger functions

In Python only the `def`s indented directly inside the `class` statement
become attributes of the class.  In `src/main.py` the class body of
`DatabaseManager` runs from line 52 to the dedent at line 306.  The
functions at lines 316-405 (`add_scammer_report` .. `is_reported_scammer`)
are written at column 0, i.e. at module level, and the `def`s at lines
412-530 (`is_blacklisted` .. `add_helpvouch`) are indented inside the body
of `is_reported_scammer`, so they are local functions of that function.
Attribute access `db.<name>` on the `DatabaseManager` instance raises
`AttributeError` for every name that is not bound in the class body. -/

/-- The attribute names bound by the class body of `DatabaseManager`
(lines 52-305): exactly the `def`s indented one level inside `class
DatabaseManager:`. -/
def databaseManagerClassAttrs : List String :=
  ["__init__", "connect", "init_database",
   "get_reputation", "add_reputation", "remove_reputation",
   "set_reputation", "clear_reputation", "get_leaderboard",
   "add_vouch", "get_vouch_cooldown", "get_vouch_history"]

/-- The functions written at module level (column 0) at lines 316-405. -/
def moduleLevelDefs : List String :=
  ["add_scammer_report", "get_scammer_reports", "remove_scammer_report",
   "clear_all_scammer_reports", "get_all_scammers", "is_reported_scammer"]

/-- The `def`s nested inside the body of `is_reported_scammer` (lines
412-530). -/
def nestedInIsReportedScammerDefs : List String :=
  ["is_blacklisted", "add_to_blacklist", "remove_from_blacklist",
   "get_blacklist", "can_use_dummy", "use_dummy", "add_helpvouch"]

/-- Python attribute lookup `db.<name>` on the `DatabaseManager` instance
`db` (line 533): succeeds exactly for class attributes, otherwise raises
`AttributeError`. -/
def dbLookup (n : String) : Except String String :=
  if databaseManagerClassAttrs.contains n then .ok n
  else .error "AttributeError"

/-! ## The FileLedger backend (spec-modelled)

The repository source under `src/` contains only the PostgreSQL backend
(`DatabaseManager`); the FileLedger backend described in spec §4.2/§6 is
not present in `src/main.py`.  The definitions in this section are
therefore modelled from the spec's words: a single document with six named
sections mirroring the six entity collections, each identity key
serialized as text and parsed back to the integer identity on load, plus
a `last_saved` timestamp field for diagnostics. -/

/-- Modelled from the spec: one decimal digit rendered as a character
(the FileLedger serializes integer keys as decimal text). -/
def digitChar (d : Nat) : Char :=
  match d with
  | 0 => '0' | 1 => '1' | 2 => '2' | 3 => '3' | 4 => '4'
  | 5 => '5' | 6 => '6' | 7 => '7' | 8 => '8' | _ => '9'

/-- Modelled from the spec: the numeric value of a digit character. -/
def charDigitVal (c : Char) : Nat := c.toNat - 48

/-- Modelled from the spec: whether a character is a decimal digit. -/
def isDigitChar (c : Char) : Bool :=
  decide (48 ≤ c.toNat) && decide (c.toNat ≤ 57)

/-- Modelled from the spec: the decimal digits of a natural number,
least-significant first. -/
def natToRev (n : Nat) : List Char :=
  if h : n < 10 then [digitChar n]
  else digitChar (n % 10) :: natToRev (n / 10)
decreasing_by exact Nat.div_lt_self (by omega) (by omega)

/-- Modelled from the spec: the decimal digits of a natural number,
most-significant first. -/
def natDigits (n : Nat) : List Char := (natToRev n).reverse

/-- Modelled from the spec: parse a digit string left to right into an
accumulator, failing on any non-digit character. -/
def decDigitsAux : Nat → List Char → Option Nat
  | acc, [] => some acc
  | acc, c :: rest =>
    if isDigitChar c then decDigitsAux (acc * 10 + charDigitVal c) rest
    else none

/-- Modelled from the spec: parse a non-empty digit string. -/
def decDigits : List Char → Option Nat
  | [] => none
  | c :: rest => decDigitsAux 0 (c :: rest)

/-- Modelled from the spec: serialize an integer identity key as text
(the FileLedger stores document keys as strings). -/
def encodeKey (i : Int) : String :=
  match i with
  | .ofNat n => String.mk (natDigits n)
  | .negSucc m => String.mk ('-' :: natDigits (m + 1))

/-- Modelled from the spec: coerce an externally-stored string key back to
the integer identity type on load. -/
def decodeKey (s : String) : Option Int :=
  match s.data with
  | [] => none
  | c :: rest =>
    if c = '-' then (decDigits rest).map (fun n => -(n : Int))
    else (decDigits (c :: rest)).map (fun n => (n : Int))

/-- Modelled from the spec: the in-memory state of the FileLedger backend,
holding the six record collections (Account, VouchRecord, HelpVouchRecord,
CooldownMark, DummyUsage, ScammerReport). -/
structure FileLedgerState where
  accounts : List (Int × UserRow)
  vouches : List VouchRow
  helpvouches : List HelpVouchRow
  cooldowns : List (Int × Nat)
  dummy_usage : List (Int × DummyRow)
  scammer_reports : List ScamRow
deriving Repr, DecidableEq

/-- Modelled from the spec: the serialized FileLedger document — six named
sections, keyed collections carrying text keys, and a `last_saved`
timestamp for diagnostics. -/
structure FileDocument where
  accounts : List (String × UserRow)
  vouches : List VouchRow
  helpvouches : List HelpVouchRow
  cooldowns : List (String × Nat)
  dummy_usage : List (String × DummyRow)
  scammer_reports : List ScamRow
  last_saved : Nat
deriving Repr, DecidableEq

/-- Modelled from the spec: serialize a keyed collection, rendering each
integer key as text. -/
def encodePairs {α : Type} (l : List (Int × α)) : List (String × α) :=
  l.map (fun p => (encodeKey p.1, p.2))

/-- Modelled from the spec: load a keyed collection, coercing every stored
string key back to an integer; fails if any key does not parse. -/
def decodePairs {α : Type} : List (String × α) → Option (List (Int × α))
  | [] => some []
  | (s, v) :: rest =>
    match decodeKey s, decodePairs rest with
    | some k, some rest' => some ((k, v) :: rest')
    | _, _ => none

/-- Modelled from the spec: write the FileLedger document from the
in-memory state (the per-mutation full-document rewrite). -/
def saveDocument (st : FileLedgerState) (now : Nat) : FileDocument :=
  ⟨encodePairs st.accounts, st.vouches, st.helpvouches,
   encodePairs st.cooldowns, encodePairs st.dummy_usage,
   st.scammer_reports, now⟩

/-- Modelled from the spec: the startup load path — parse the document and
reconstruct all six record collections, coercing string keys back to
integers. -/
def loadDocument (doc : FileDocument) : Option FileLedgerState :=
  match decodePairs doc.accounts, decodePairs doc.cooldowns,
        decodePairs doc.dummy_usage with
  | some a, some c, some d =>
    some ⟨a, doc.vouches, doc.helpvouches, c, d, doc.scammer_reports⟩
  | _, _, _ => none

/-! ## Helper lemmas -/

theorem findRow_upsert_self {α : Type} (l : List (Int × α)) (k : Int)
    (ins : α) (upd : α → α) :
    findRow (upsert l k ins upd) k =
      some (match findRow l k with | none => ins | some v => upd v) := by
  induction l with
  | nil => simp [upsert, findRow]
  | cons p rest ih =>
    obtain ⟨k', v⟩ := p
    by_cases h : k' = k
    · subst h; simp [upsert, findRow]
    · simp [upsert, findRow, h, ih]

theorem findRow_upsert_other {α : Type} (l : List (Int × α)) (k k' : Int)
    (ins : α) (upd : α → α) (h : k' ≠ k) :
    findRow (upsert l k ins upd) k' = findRow l k' := by
  induction l with
  | nil =>
    have : ¬(k = k') := fun hh => h hh.symm
    simp [upsert, findRow, this]
  | cons p rest ih =>
    obtain ⟨k₀, v⟩ := p
    by_cases h0 : k₀ = k
    · subst h0
      have : k₀ ≠ k' := fun hh => h hh.symm
      simp [upsert, findRow, this]
    · by_cases h1 : k₀ = k'
      · subst h1; simp [upsert, findRow, h0]
      · simp [upsert, findRow, h0, h1, ih]

theorem findRow_delRow_self {α : Type} (l : List (Int × α)) (k : Int) :
    findRow (delRow l k) k = none := by
  induction l with
  | nil => rfl
  | cons p rest ih =>
    obtain ⟨k', v⟩ := p
    by_cases h : k' = k
    · subst h; simpa [delRow, findRow] using ih
    · simpa [delRow, findRow, h] using ih

theorem charDigitVal_digitChar (d : Nat) (h : d < 10) :
    charDigitVal (digitChar d) = d := by
  interval_cases d <;> decide

theorem isDigitChar_digitChar (d : Nat) (h : d < 10) :
    isDigitChar (digitChar d) = true := by
  interval_cases d <;> decide

theorem decDigitsAux_append (acc : Nat) (l1 l2 : List Char) :
    decDigitsAux acc (l1 ++ l2) =
      match decDigitsAux acc l1 with
      | some a => decDigitsAux a l2
      | none => none := by
  induction l1 generalizing acc with
  | nil => rfl
  | cons c rest ih =>
    simp only [List.cons_append, decDigitsAux]
    by_cases h : isDigitChar c = true
    · simp [h, ih]
    · simp [h]

theorem natToRev_ne_nil (n : Nat) : natToRev n ≠ [] := by
  rw [natToRev]
  split <;> simp

theorem decDigitsAux_natToRev (n : Nat) : ∀ acc : Nat,
    decDigitsAux acc (natToRev n).reverse =
      some (acc * 10 ^ (natToRev n).length + n) := by
  induction n using Nat.strong_induction_on with
  | _ n ih =>
    intro acc
    rw [natToRev]
    by_cases h : n < 10
    · simp only [h, dif_pos, List.reverse_singleton, List.length_singleton,
        decDigitsAux, isDigitChar_digitChar n h, if_pos,
        charDigitVal_digitChar n h]
      norm_num
    · have hdiv : n / 10 < n := Nat.div_lt_self (by omega) (by omega)
      simp only [h, dif_neg, not_false_iff, List.reverse_cons, List.length_cons]
      rw [decDigitsAux_append, ih (n / 10) hdiv acc]
      simp only [decDigitsAux, isDigitChar_digitChar (n % 10) (Nat.mod_lt n (by omega)),
        if_pos, charDigitVal_digitChar (n % 10) (Nat.mod_lt n (by omega))]
      have : (acc * 10 ^ (natToRev (n / 10)).length + n / 10) * 10 + n % 10 =
          acc * 10 ^ ((natToRev (n / 10)).length + 1) + n := by
        rw [pow_succ]
        have := Nat.div_add_mod n 10
        ring_nf
        omega
      rw [this]

theorem decDigits_natDigits (n : Nat) : decDigits (natDigits n) = some n := by
  have hne : natDigits n ≠ [] := by
    simp [natDigits, natToRev_ne_nil n]
  obtain ⟨c, rest, hcr⟩ := List.exists_cons_of_ne_nil hne
  have : decDigits (natDigits n) = decDigitsAux 0 (natDigits n) := by
    rw [hcr]; rfl
  rw [this, natDigits, decDigitsAux_natToRev n 0]
  simp

theorem mem_natToRev_isDigit (n : Nat) :
    ∀ c ∈ natToRev n, isDigitChar c = true := by
  induction n using Nat.strong_induction_on with
  | _ n ih =>
    intro c hc
    rw [natToRev] at hc
    by_cases h : n < 10
    · simp only [h, dif_pos, List.mem_singleton] at hc
      subst hc
      exact isDigitChar_digitChar n h
    · simp only [h, dif_neg, not_false_iff, List.mem_cons] at hc
      rcases hc with hc | hc
      · subst hc
        exact isDigitChar_digitChar (n % 10) (Nat.mod_lt n (by omega))
      · exact ih (n / 10) (Nat.div_lt_self (by omega) (by omega)) c hc

theorem decodeKey_encodeKey (i : Int) : decodeKey (encodeKey i) = some i := by
  cases i with
  | ofNat n =>
    have hne : natDigits n ≠ [] := by simp [natDigits, natToRev_ne_nil n]
    obtain ⟨c, rest, hcr⟩ := List.exists_cons_of_ne_nil hne
    have hcdig : isDigitChar c = true := by
      apply mem_natToRev_isDigit n
      rw [natDigits] at hcr
      have : c ∈ (natToRev n).reverse := by rw [hcr]; simp
      simpa using this
    have hcne : ¬(c = '-') := by
      intro hh
      subst hh
      simp [isDigitChar] at hcdig
    have h1 : decodeKey (encodeKey (.ofNat n)) =
        (decDigits (natDigits n)).map (fun m => (m : Int)) := by
      simp only [decodeKey, encodeKey]
      rw [hcr]
      simp only [if_neg hcne]
    rw [h1, decDigits_natDigits n]
    rfl
  | negSucc m =>
    have hdata : (encodeKey (.negSucc m)).data = '-' :: natDigits (m + 1) := rfl
    have h1 : decodeKey (encodeKey (.negSucc m)) =
        (decDigits (natDigits (m + 1))).map (fun n => -(n : Int)) := by
      simp only [decodeKey, hdata]
      rw [if_pos trivial]
    rw [h1, decDigits_natDigits (m + 1)]
    simp [Int.negSucc_eq]

theorem decodePairs_encodePairs {α : Type} (l : List (Int × α)) :
    decodePairs (encodePairs l) = some l := by
  induction l with
  | nil => rfl
  | cons p rest ih =>
    obtain ⟨k, v⟩ := p
    have ih2 : decodePairs (List.map (fun p => (encodeKey p.1, p.2)) rest) = some rest := by
      simpa [encodePairs] using ih
    simp [encodePairs, decodePairs, decodeKey_encodeKey k, ih2]

/-! ## Claim theorems -/

/-- C4: for every `user_id` and every non-negative amount `a`,
`remove_reputation(user_id, a)` applied at current reputation `r` (0 when
the account does not exist) leaves reputation exactly `max 0 (r - a)`, and
the result is never negative. -/
theorem remove_reputation_clamps (st : DBState) (uid a : Int) (ha : 0 ≤ a) :
    get_reputation (remove_reputation st uid a) uid =
      max 0 (get_reputation st uid - a) ∧
    0 ≤ get_reputation (remove_reputation st uid a) uid := by
  have h : get_reputation (remove_reputation st uid a) uid =
      max 0 (get_reputation st uid - a) := by
    simp only [get_reputation, remove_reputation, findRow_upsert_self]
    cases hrow : findRow st.users uid with
    | none => simp [hrow]; omega
    | some r => simp [hrow]
  exact ⟨h, by rw [h]; omega⟩

/-- Witness for `remove_reputation_clamps`: an account holding 6
reputation, removing 10, ends at `max 0 (6 - 10) = 0`. -/
theorem remove_reputation_clamps_witness :
    (0 : Int) ≤ 10 ∧
    (get_reputation (remove_reputation (add_reputation DBState.empty 42 6) 42 10) 42 =
      max 0 (get_reputation (add_reputation DBState.empty 42 6) 42 - 10) ∧
     0 ≤ get_reputation (remove_reputation (add_reputation DBState.empty 42 6) 42 10) 42) :=
  ⟨by decide, remove_reputation_clamps (add_reputation DBState.empty 42 6) 42 10 (by decide)⟩

/-- C8: `get_vouch_cooldown` returns `none` iff the user never vouched (no
cooldown row) or at least `Config.VOUCH_COOLDOWN = 600` seconds elapsed;
otherwise it returns exactly the cooldown window minus the elapsed time,
a value in `(0, 600]`.  `hclock` records that the stored mark was taken
from the same server clock, so it is not in the future. -/
theorem get_vouch_cooldown_spec (st : DBState) (now : Nat) (uid : Int)
    (hclock : ∀ t0, findRow st.cooldowns uid = some t0 → t0 ≤ now) :
    (get_vouch_cooldown st now uid = none ↔
      (findRow st.cooldowns uid = none ∨
        ∃ t0, findRow st.cooldowns uid = some t0 ∧
          Config.VOUCH_COOLDOWN ≤ now - t0)) ∧
    (∀ t0, findRow st.cooldowns uid = some t0 → now - t0 < Config.VOUCH_COOLDOWN →
      get_vouch_cooldown st now uid =
        some (Config.VOUCH_COOLDOWN - (now - t0)) ∧
      0 < Config.VOUCH_COOLDOWN - (now - t0) ∧
      Config.VOUCH_COOLDOWN - (now - t0) ≤ Config.VOUCH_COOLDOWN) := by
  constructor
  · cases hrow : findRow st.cooldowns uid with
    | none => simp [get_vouch_cooldown, hrow]
    | some t0 =>
      have := hclock t0 hrow
      simp only [get_vouch_cooldown, hrow]
      by_cases h6 : Config.VOUCH_COOLDOWN ≤ now - t0
      · simp [h6]
      · simp [h6]
  · intro t0 hrow hlt
    simp only [Config.VOUCH_COOLDOWN] at hlt ⊢
    have hle : ¬ (600 ≤ now - t0) := by omega
    exact ⟨by simp [get_vouch_cooldown, Config.VOUCH_COOLDOWN, hrow, hle],
      by omega, by omega⟩

/-- Witness for `get_vouch_cooldown_spec`: a user whose last vouch was 100
seconds ago has exactly 500 seconds of cooldown left. -/
theorem get_vouch_cooldown_spec_witness :
    (get_vouch_cooldown ⟨[], [], [(1, 1000)], [], [], [], 0⟩ 1100 1 = none ↔
      (findRow ([((1 : Int), (1000 : Nat))]) 1 = none ∨
        ∃ t0, findRow ([((1 : Int), (1000 : Nat))]) 1 = some t0 ∧
          Config.VOUCH_COOLDOWN ≤ 1100 - t0)) ∧
    (∀ t0, findRow ([((1 : Int), (1000 : Nat))]) 1 = some t0 →
      1100 - t0 < Config.VOUCH_COOLDOWN →
      get_vouch_cooldown ⟨[], [], [(1, 1000)], [], [], [], 0⟩ 1100 1 =
        some (Config.VOUCH_COOLDOWN - (1100 - t0)) ∧
      0 < Config.VOUCH_COOLDOWN - (1100 - t0) ∧
      Config.VOUCH_COOLDOWN - (1100 - t0) ≤ Config.VOUCH_COOLDOWN) :=
  get_vouch_cooldown_spec ⟨[], [], [(1, 1000)], [], [], [], 0⟩ 1100 1
    (by intro t0 h; simp [findRow] at h; omega)

/-- C10: the daily-quota check fails open — when the storage read inside
`can_use_dummy` raises, the `except` branch returns
`(True, Config.DUMMY_PER_DAY)`, so a storage failure never prevents a
dummy use. -/
theorem can_use_dummy_fails_open (e : StorageError) (today uid : Int) :
    can_use_dummy_run (.error e) today uid = (true, Config.DUMMY_PER_DAY) := rfl

/-- C9 (spec-modelled, the FileLedger backend is absent from `src/`):
serializing any ledger state to the FileLedger document and loading it
into a fresh instance reproduces all six collections value-for-value,
with log order preserved and string keys coerced back to integers. -/
theorem fileLedger_roundTrip (st : FileLedgerState) (now : Nat) :
    loadDocument (saveDocument st now) = some st := by
  obtain ⟨a, v, h, c, d, s⟩ := st
  simp [saveDocument, loadDocument, decodePairs_encodePairs]

/-- C5 counterexample: on a raised backend exception the operations do not
surface any error — they return exactly the default values (`0`, `[]`,
`False`), indistinguishable from a legitimate read of an empty database. -/
theorem storage_error_returns_defaults :
    get_reputation_run (.error .connectionFailed) 42 = 0 ∧
    get_reputation_run (.ok DBState.empty) 42 = 0 ∧
    get_leaderboard_run (.error .connectionFailed) = [] ∧
    is_blacklisted_run (.error .connectionFailed) 7 = false := by
  exact ⟨rfl, rfl, rfl, rfl⟩

/-- C5 amended: every operation suppresses storage errors — the
`try/except` wrapper logs the exception and returns a default value
(`0` for `get_reputation`, `[]` for `get_leaderboard`, `False` for
`is_blacklisted`, `(True, Config.DUMMY_PER_DAY)` for `can_use_dummy`)
instead of propagating a typed error to the caller. -/
theorem storage_errors_suppressed (e : StorageError) (uid today : Int) :
    get_reputation_run (.error e) uid = 0 ∧
    get_leaderboard_run (.error e) = [] ∧
    is_blacklisted_run (.error e) uid = false ∧
    can_use_dummy_run (.error e) today uid = (true, Config.DUMMY_PER_DAY) :=
  ⟨rfl, rfl, rfl, rfl⟩

/-- C6: the daily-quota check.  No `dummy_usage` row or a stored date
other than today yields `(True, Config.DUMMY_PER_DAY)`; a row dated today
with count `c` yields `(c < Config.DUMMY_PER_DAY, Config.DUMMY_PER_DAY -
c)`; a row dated yesterday with count 3 yields the full quota; and after
three consumptions today (starting from no row) a fourth check yields
`(False, 0)`. -/
theorem can_use_dummy_spec (st : DBState) (today uid : Int) :
    (findRow st.dummy_usage uid = none →
      can_use_dummy st today uid = (true, Config.DUMMY_PER_DAY)) ∧
    (∀ d c, findRow st.dummy_usage uid = some ⟨d, c⟩ → d ≠ today →
      can_use_dummy st today uid = (true, Config.DUMMY_PER_DAY)) ∧
    (∀ c, findRow st.dummy_usage uid = some ⟨today, c⟩ →
      can_use_dummy st today uid =
        (decide (c < Config.DUMMY_PER_DAY), Config.DUMMY_PER_DAY - c)) ∧
    (findRow st.dummy_usage uid = some ⟨today - 1, 3⟩ →
      can_use_dummy st today uid = (true, Config.DUMMY_PER_DAY)) ∧
    (findRow st.dummy_usage uid = none →
      can_use_dummy (use_dummy (use_dummy (use_dummy st today uid) today uid) today uid)
        today uid = (false, 0)) := by
  refine ⟨?_, ?_, ?_, ?_, ?_⟩
  · intro h
    simp [can_use_dummy, h]
  · intro d c h hd
    simp [can_use_dummy, h, hd]
  · intro c h
    have hdec : (decide (0 < Config.DUMMY_PER_DAY - c)) =
        (decide (c < Config.DUMMY_PER_DAY)) := by
      rw [decide_eq_decide]
      simp only [Config.DUMMY_PER_DAY]
      omega
    simp [can_use_dummy, h, ← hdec]
  · intro h
    have hd : today - 1 ≠ today := by omega
    simp [can_use_dummy, h, hd]
  · intro h
    have hne : ¬((1 : Int) < Config.DUMMY_PER_DAY - 2) := by
      simp only [Config.DUMMY_PER_DAY]; omega
    simp [can_use_dummy, use_dummy, findRow_upsert_self, h,
      Config.DUMMY_PER_DAY]

/-- Witness for `can_use_dummy_spec`: a fresh user has the full quota; a
user with a row dated yesterday (`99`) with count 3 has the full quota
today (`100`); and after three consumptions today the fourth check is
denied with 0 remaining. -/
theorem can_use_dummy_spec_witness :
    can_use_dummy DBState.empty 100 7 = (true, Config.DUMMY_PER_DAY) ∧
    can_use_dummy ⟨[], [], [], [(7, ⟨99, 3⟩)], [], [], 0⟩ 100 7 =
      (true, Config.DUMMY_PER_DAY) ∧
    can_use_dummy (use_dummy (use_dummy (use_dummy DBState.empty 100 7) 100 7) 100 7)
      100 7 = (false, 0) :=
  ⟨(can_use_dummy_spec DBState.empty 100 7).1 rfl,
   (can_use_dummy_spec ⟨[], [], [], [(7, ⟨99, 3⟩)], [], [], 0⟩ 100 7).2.2.2.1 (by decide),
   (can_use_dummy_spec DBState.empty 100 7).2.2.2.2 rfl⟩

/-- C7: when the voucher's last vouch was less than 600 seconds ago and
the attempt passes the earlier validations (not blacklisted, valid reason,
not self, not a bot), `vouch_cmd` takes the cooldown branch reporting the
exact remaining seconds, and returns the state unchanged — the target's
reputation is not mutated and no VouchRecord is appended. -/
theorem vouch_cmd_cooldown_blocks (st : DBState) (now : Nat) (authorId : Int)
    (member : Member) (r : String) (t0 : Nat) (orep ov1 ov2 : StmtOutcome)
    (hbl : is_blacklisted st authorId = false)
    (hr : ¬((pyStrip r).length < 3))
    (hself : member.id ≠ authorId)
    (hbot : member.isBot = false)
    (ht : findRow st.cooldowns authorId = some t0)
    (hlt : now - t0 < Config.VOUCH_COOLDOWN) :
    vouch_cmd st now authorId member (some r) orep ov1 ov2 =
      (.cooldownActive (Config.VOUCH_COOLDOWN - (now - t0)), st) ∧
    get_reputation ((vouch_cmd st now authorId member (some r) orep ov1 ov2).2)
      member.id = get_reputation st member.id ∧
    ((vouch_cmd st now authorId member (some r) orep ov1 ov2).2).vouches = st.vouches := by
  have hcd : get_vouch_cooldown st now authorId =
      some (Config.VOUCH_COOLDOWN - (now - t0)) := by
    have hle : ¬ (Config.VOUCH_COOLDOWN ≤ now - t0) := by
      simp only [Config.VOUCH_COOLDOWN] at hlt ⊢; omega
    simp [get_vouch_cooldown, ht, hle]
  have h : vouch_cmd st now authorId member (some r) orep ov1 ov2 =
      (.cooldownActive (Config.VOUCH_COOLDOWN - (now - t0)), st) := by
    simp [vouch_cmd, hbl, hr, hself, hbot, hcd]
  exact ⟨h, by rw [h], by rw [h]⟩

/-- Witness for `vouch_cmd_cooldown_blocks`: user 1 vouched at time 1000
and tries again at 1100; the command reports 500 seconds remaining and
leaves the state untouched. -/
theorem vouch_cmd_cooldown_blocks_witness :
    vouch_cmd ⟨[], [], [(1, 1000)], [], [], [], 0⟩ 1100 1 ⟨2, false⟩
        (some "great trader") .ok .ok .ok =
      (.cooldownActive (Config.VOUCH_COOLDOWN - (1100 - 1000)),
        ⟨[], [], [(1, 1000)], [], [], [], 0⟩) ∧
    get_reputation ((vouch_cmd ⟨[], [], [(1, 1000)], [], [], [], 0⟩ 1100 1 ⟨2, false⟩
        (some "great trader") .ok .ok .ok).2) 2 =
      get_reputation ⟨[], [], [(1, 1000)], [], [], [], 0⟩ 2 ∧
    ((vouch_cmd ⟨[], [], [(1, 1000)], [], [], [], 0⟩ 1100 1 ⟨2, false⟩
        (some "great trader") .ok .ok .ok).2).vouches = [] :=
  vouch_cmd_cooldown_blocks ⟨[], [], [(1, 1000)], [], [], [], 0⟩ 1100 1 ⟨2, false⟩
    "great trader" 1000 .ok .ok .ok rfl (by decide) (by decide) rfl rfl (by decide)

/-- C2 (the attribute-binding defect): the scammer-report, blacklist,
daily-quota and helpvouch functions are **not** attributes of
`DatabaseManager` — `add_scammer_report` through `is_reported_scammer` are
module-level functions and `is_blacklisted` through `add_helpvouch` are
nested inside `is_reported_scammer` — so `db.is_blacklisted` (start of
`vouch_cmd`), `db.can_use_dummy` (start of `dummy_cmd`) and
`db.add_scammer_report` raise `AttributeError`. -/
theorem ledger_functions_not_class_attrs :
    dbLookup "is_blacklisted" = .error "AttributeError" ∧
    dbLookup "can_use_dummy" = .error "AttributeError" ∧
    dbLookup "add_scammer_report" = .error "AttributeError" ∧
    dbLookup "add_helpvouch" = .error "AttributeError" ∧
    nestedInIsReportedScammerDefs.contains "is_blacklisted" = true ∧
    nestedInIsReportedScammerDefs.contains "can_use_dummy" = true ∧
    moduleLevelDefs.contains "add_scammer_report" = true ∧
    dbLookup "get_reputation" = .ok "get_reputation" :=
  ⟨rfl, rfl, rfl, rfl, rfl, rfl, rfl, rfl⟩

theorem get_reputation_add (st : DBState) (uid amount : Int) :
    get_reputation (add_reputation st uid amount) uid =
      get_reputation st uid + amount := by
  simp only [get_reputation, add_reputation, findRow_upsert_self]
  cases h : findRow st.users uid <;> simp [h]

/-- C1 counterexample: starting from an empty database, a `!vouch` in
which the `add_reputation` statement commits but the insert inside
`add_vouch` raises (a mid-sequence storage failure, swallowed by the
`except` and committed per-statement by `autocommit`) reports success and
leaves the target's reputation increased by 3 with **no** VouchRecord
appended and **no** CooldownMark set — a partial application. -/
theorem vouch_partial_application :
    (vouch_cmd DBState.empty 1000 1 ⟨2, false⟩ (some "great trader")
        .ok .raise .raise).1 = .success 3 ∧
    get_reputation (vouch_cmd DBState.empty 1000 1 ⟨2, false⟩ (some "great trader")
        .ok .raise .raise).2 2 = 3 ∧
    (vouch_cmd DBState.empty 1000 1 ⟨2, false⟩ (some "great trader")
        .ok .raise .raise).2.vouches = [] ∧
    findRow (vouch_cmd DBState.empty 1000 1 ⟨2, false⟩ (some "great trader")
        .ok .raise .raise).2.cooldowns 1 = none := by
  decide

/-- C1 amended: when every backend statement commits, a vouch that passes
validation applies exactly the three effects — the target's reputation
increases by the fixed amount `Config.VOUCH_REP_AMOUNT = 3`, exactly one
VouchRecord is appended, and the **voucher's** (not the target's)
CooldownMark is set to now — and touches nothing else; but the three
effects are not atomic: each statement commits individually and the
`except` swallows failures, so a storage failure mid-sequence can leave a
partial application (see the counterexample). -/
theorem vouch_success_effects (st : DBState) (now : Nat) (authorId : Int)
    (member : Member) (r : String)
    (hbl : is_blacklisted st authorId = false)
    (hr : ¬((pyStrip r).length < 3))
    (hself : member.id ≠ authorId)
    (hbot : member.isBot = false)
    (hcd : get_vouch_cooldown st now authorId = none) :
    (vouch_cmd st now authorId member (some r) .ok .ok .ok).1 =
      .success (get_reputation st member.id + Config.VOUCH_REP_AMOUNT) ∧
    get_reputation (vouch_cmd st now authorId member (some r) .ok .ok .ok).2 member.id =
      get_reputation st member.id + Config.VOUCH_REP_AMOUNT ∧
    (vouch_cmd st now authorId member (some r) .ok .ok .ok).2.vouches =
      st.vouches ++ [⟨member.id, authorId, r, Config.VOUCH_REP_AMOUNT, now⟩] ∧
    findRow (vouch_cmd st now authorId member (some r) .ok .ok .ok).2.cooldowns
      authorId = some now ∧
    (∀ u, u ≠ authorId →
      findRow (vouch_cmd st now authorId member (some r) .ok .ok .ok).2.cooldowns u =
        findRow st.cooldowns u) ∧
    (vouch_cmd st now authorId member (some r) .ok .ok .ok).2.helpvouches =
      st.helpvouches ∧
    (vouch_cmd st now authorId member (some r) .ok .ok .ok).2.dummy_usage =
      st.dummy_usage ∧
    (vouch_cmd st now authorId member (some r) .ok .ok .ok).2.scammer_reports =
      st.scammer_reports := by
  have hcmd : vouch_cmd st now authorId member (some r) .ok .ok .ok =
      (.success (get_reputation st member.id + Config.VOUCH_REP_AMOUNT),
       { add_reputation st member.id Config.VOUCH_REP_AMOUNT with
         vouches := st.vouches ++ [⟨member.id, authorId, r, Config.VOUCH_REP_AMOUNT, now⟩],
         cooldowns := upsert st.cooldowns authorId now (fun _ => now) }) := by
    simp only [vouch_cmd, hbl, Bool.false_eq_true, if_false, if_neg hr,
      if_neg hself, hbot, hcd, add_reputation_stmt, add_vouch]
    rw [Prod.mk.injEq]
    exact ⟨congrArg VouchResult.success
      (get_reputation_add st member.id Config.VOUCH_REP_AMOUNT), rfl⟩
  rw [hcmd]
  refine ⟨rfl, ?_, rfl, ?_, ?_, rfl, rfl, rfl⟩
  · exact get_reputation_add st member.id Config.VOUCH_REP_AMOUNT
  · have h4 := findRow_upsert_self st.cooldowns authorId now (fun _ => now)
    cases hx : findRow st.cooldowns authorId with
    | none => rw [hx] at h4; exact h4
    | some v => rw [hx] at h4; exact h4
  · exact fun u hu => findRow_upsert_other st.cooldowns authorId u now (fun _ => now) hu

/-- Witness for `vouch_success_effects`: user 1 vouches for user 2 in an
empty database at time 500 with reason "great trader". -/
theorem vouch_success_effects_witness :
    (vouch_cmd DBState.empty 500 1 ⟨2, false⟩ (some "great trader") .ok .ok .ok).1 =
      .success (get_reputation DBState.empty 2 + Config.VOUCH_REP_AMOUNT) ∧
    get_reputation (vouch_cmd DBState.empty 500 1 ⟨2, false⟩ (some "great trader")
        .ok .ok .ok).2 2 = get_reputation DBState.empty 2 + Config.VOUCH_REP_AMOUNT ∧
    (vouch_cmd DBState.empty 500 1 ⟨2, false⟩ (some "great trader") .ok .ok .ok).2.vouches =
      [] ++ [⟨2, 1, "great trader", Config.VOUCH_REP_AMOUNT, 500⟩] ∧
    findRow (vouch_cmd DBState.empty 500 1 ⟨2, false⟩ (some "great trader")
        .ok .ok .ok).2.cooldowns 1 = some 500 ∧
    (∀ u, u ≠ 1 →
      findRow (vouch_cmd DBState.empty 500 1 ⟨2, false⟩ (some "great trader")
        .ok .ok .ok).2.cooldowns u = findRow DBState.empty.cooldowns u) ∧
    (vouch_cmd DBState.empty 500 1 ⟨2, false⟩ (some "great trader")
        .ok .ok .ok).2.helpvouches = DBState.empty.helpvouches ∧
    (vouch_cmd DBState.empty 500 1 ⟨2, false⟩ (some "great trader")
        .ok .ok .ok).2.dummy_usage = DBState.empty.dummy_usage ∧
    (vouch_cmd DBState.empty 500 1 ⟨2, false⟩ (some "great trader")
        .ok .ok .ok).2.scammer_reports = DBState.empty.scammer_reports :=
  vouch_success_effects DBState.empty 500 1 ⟨2, false⟩ "great trader"
    rfl (by decide) (by decide) rfl rfl

/-- C3 counterexample: clearing a blacklisted user's reputation data also
erases the blacklist flag, because `clear_reputation` deletes the whole
`users` row and the flag lives in that row — `is_blacklisted` flips from
`True` to `False`. -/
theorem clear_reputation_erases_blacklist :
    is_blacklisted (add_to_blacklist DBState.empty 5) 5 = true ∧
    is_blacklisted (clear_reputation (add_to_blacklist DBState.empty 5) 5) 5 = false := by
  decide

/-- C3 amended: `clear_reputation(user_id)` deletes the Account row
(including its blacklist flag, so `is_blacklisted` reads `False`
afterwards even for a previously blacklisted user), removes exactly the
VouchRecords and HelpVouchRecords whose target is that id, and leaves the
ScammerReports untouched. -/
theorem clear_reputation_effects (st : DBState) (uid : Int) :
    findRow (clear_reputation st uid).users uid = none ∧
    get_reputation (clear_reputation st uid) uid = 0 ∧
    (∀ v : VouchRow, v ∈ (clear_reputation st uid).vouches ↔
      v ∈ st.vouches ∧ v.target_id ≠ uid) ∧
    (∀ h : HelpVouchRow, h ∈ (clear_reputation st uid).helpvouches ↔
      h ∈ st.helpvouches ∧ h.target_id ≠ uid) ∧
    (clear_reputation st uid).scammer_reports = st.scammer_reports ∧
    get_scammer_reports (clear_reputation st uid) uid = get_scammer_reports st uid ∧
    is_blacklisted (clear_reputation st uid) uid = false := by
  refine ⟨?_, ?_, ?_, ?_, rfl, rfl, ?_⟩
  · rw [show (clear_reputation st uid).users = delRow st.users uid from rfl]
    exact findRow_delRow_self st.users uid
  · rw [get_reputation,
      show (clear_reputation st uid).users = delRow st.users uid from rfl,
      findRow_delRow_self st.users uid]
  · intro v
    simp [clear_reputation, List.mem_filter]
  · intro h
    simp [clear_reputation, List.mem_filter]
  · rw [is_blacklisted,
      show (clear_reputation st uid).users = delRow st.users uid from rfl,
      findRow_delRow_self st.users uid]
